import Mathlib

/-!
Verification of the Magi Astrology Position and Aspect Engine.

Shallow embedding of `src/magi-astro/astro.py` (the position resolver
`calculate_positions` and the aspect engine `calculate_aspects`) together
with proofs of the specification claims.

Modelling conventions:
* Python floats are modelled as rationals (`ℚ`).
* The ephemeris backends are abstracted as functions from instants to
  longitudes in degrees: the pyephem backend is `Adapter.pyephemLong`
  (the value of `body.hlong * 180 / ephem.pi` for the given body at the
  given UTC instant), and the skyfield backend for Chiron is
  `Adapter.chironLong`, which is `none` when the ephemeris file failed to
  load (the `eph, ts, chiron_skyfield = None, None, None` degraded state).
* An instant is a rational number of hours; `instant + 1` is the
  `dt_utc + datetime.timedelta(hours=1)` query.
* Python dictionaries are association lists in insertion order;
  assignment `d[k] = v` is `dictInsert`.
* The loop-local variable `is_retrograde` of `calculate_positions`
  persists across iterations of the `for p_name in PLANETS` loop, so the
  loop state carries it as an `Option Bool` (`none` before the first
  assignment); reading it while unassigned is a Python `NameError`,
  modelled by `Except.error`.
-/

/-- An absolute UTC instant, measured in hours (only differences matter). -/
abbrev Instant := ℚ

/-- The per-body record stored in the `positions` dictionary
(`astro.py` lines 149–153). -/
structure Position where
  longitude : ℚ
  is_retrograde : Bool
  Rx_symbol : String
deriving DecidableEq, Repr

/-- The two ephemeris backends, abstracted.  `pyephemLong b t` is the degree
longitude the pyephem source reports for body `b` at instant `t`;
`chironLong` is the skyfield source for Chiron, `none` when the ephemeris
failed to load at startup. -/
structure Adapter where
  pyephemLong : String → Instant → ℚ
  chironLong : Option (Instant → ℚ)

/-- `PLANETS` constant (`astro.py` line 60). -/
def PLANETS : List String :=
  ["Sun", "Moon", "Mercury", "Venus", "Mars", "Jupiter", "Saturn",
   "Uranus", "Neptune", "Pluto", "Chiron"]

/-- `get_pyephem_body` (`astro.py` lines 81–93): returns the pyephem body
for a classical-planet name and `None` otherwise.  The pyephem object is
identified with the body name it computes. -/
def get_pyephem_body (planet_name : String) : Option String :=
  if planet_name = "Sun" then some "Sun"
  else if planet_name = "Moon" then some "Moon"
  else if planet_name = "Mercury" then some "Mercury"
  else if planet_name = "Venus" then some "Venus"
  else if planet_name = "Mars" then some "Mars"
  else if planet_name = "Jupiter" then some "Jupiter"
  else if planet_name = "Saturn" then some "Saturn"
  else if planet_name = "Uranus" then some "Uranus"
  else if planet_name = "Neptune" then some "Neptune"
  else if planet_name = "Pluto" then some "Pluto"
  else none

/-- The wraparound-corrected signed longitude delta
(`astro.py` lines 139–143):
`diff = future_long - current_long`, then `diff += 360` when
`diff < -180` and `diff -= 360` when `diff > 180`. -/
def diffCorrect (current_long future_long : ℚ) : ℚ :=
  let diff := future_long - current_long
  if diff < -180 then diff + 360
  else if diff > 180 then diff - 360
  else diff

/-- `is_retrograde = diff < 0` (`astro.py` line 145). -/
def retroFlag (current_long future_long : ℚ) : Bool :=
  decide (diffCorrect current_long future_long < 0)

/-- The dictionary entry built at `astro.py` lines 149–153.  `retro` is the
current value of the loop-local variable `is_retrograde`: the stored flag
is that value unless the body is Chiron, Sun or Moon (then `False`), and
the marker is `Rx` when the body is not Sun or Moon and the variable is
truthy, else the empty string. -/
def mkEntry (p_name : String) (long_deg : ℚ) (retro : Bool) : Position :=
  ⟨long_deg,
   if p_name ≠ "Chiron" ∧ ¬(p_name = "Sun" ∨ p_name = "Moon") then retro else false,
   if ¬(p_name = "Sun" ∨ p_name = "Moon") ∧ retro then "Rx" else ""⟩

/-- Python dictionary assignment `d[k] = v`: overwrite in place if the key
exists, else append at the end. -/
def dictInsert (m : List (String × Position)) (k : String) (v : Position) :
    List (String × Position) :=
  if m.any (fun kv => kv.1 = k) then
    m.map (fun kv => if kv.1 = k then (k, v) else kv)
  else m ++ [(k, v)]

/-- The Chiron longitude (`astro.py` lines 110–118): the skyfield apparent
ecliptic longitude when the ephemeris is loaded, else the `0` default
(with a logged warning). -/
def chironDeg (ad : Adapter) (t : Instant) : ℚ :=
  match ad.chironLong with
  | some f => f t
  | none => 0

/-- One iteration of the `for p_name in PLANETS` loop of
`calculate_positions` (`astro.py` lines 109–153).  The state is the
`positions` dictionary together with the current value of the loop-local
`is_retrograde` variable (`none` = not yet assigned).  An unknown body
(`get_pyephem_body` returns `None`) hits the `continue` at line 147 and
leaves the state unchanged. -/
def resolveStep (ad : Adapter) (t : Instant)
    (st : List (String × Position) × Option Bool) (p_name : String) :
    Except String (List (String × Position) × Option Bool) :=
  if p_name = "Chiron" then
    match st.2 with
    | some retro =>
        Except.ok (dictInsert st.1 p_name (mkEntry p_name (chironDeg ad t) retro), st.2)
    | none => Except.error "NameError: is_retrograde referenced before assignment"
  else
    match get_pyephem_body p_name with
    | some b =>
        let long_deg := ad.pyephemLong b t
        let current_long := ad.pyephemLong b t
        let future_long := ad.pyephemLong b (t + 1)
        let retro := retroFlag current_long future_long
        Except.ok (dictInsert st.1 p_name (mkEntry p_name long_deg retro), some retro)
    | none => Except.ok st

/-- The `for p_name in ...` loop of `calculate_positions`, over an
arbitrary roster. -/
def resolveLoop (ad : Adapter) (t : Instant) :
    List String → List (String × Position) × Option Bool →
    Except String (List (String × Position) × Option Bool)
  | [], st => Except.ok st
  | p :: rest, st =>
    match resolveStep ad t st p with
    | Except.ok st' => resolveLoop ad t rest st'
    | Except.error e => Except.error e

/-- `calculate_positions` (`astro.py` lines 95–154): iterate the fixed
`PLANETS` roster and return the `positions` dictionary. -/
def calculate_positions (ad : Adapter) (t : Instant) :
    Except String (List (String × Position)) :=
  (resolveLoop ad t PLANETS ([], none)).map Prod.fst

/-- The retrograde flag `calculate_positions` derives for a pyephem body
from the two adapter queries at `t` and `t + 1` hour. -/
def retroOf (ad : Adapter) (b : String) (t : Instant) : Bool :=
  retroFlag (ad.pyephemLong b t) (ad.pyephemLong b (t + 1))

/-- The entry the resolver produces for a classical (pyephem) roster body:
longitude from the adapter at `t`, retrograde flag from the finite
difference between `t` and `t + 1` hour. -/
def rosterEntry (ad : Adapter) (t : Instant) (p : String) : Position :=
  mkEntry p (ad.pyephemLong p t) (retroOf ad p t)

/-! ## The aspect engine (`calculate_aspects`, `astro.py` lines 156–213) -/

/-- One row of the static `ASPECTS` registry (`astro.py` lines 69–77). -/
structure AspectData where
  name : String
  type : String
  symbol : String
deriving DecidableEq, Repr

/-- `ASPECTS` (`astro.py` lines 69–77), in dictionary insertion order. -/
def ASPECTS : List (ℕ × AspectData) :=
  [(0, ⟨"Conjunction", "Hard", "☌"⟩),
   (30, ⟨"Semi-Sextile", "Soft", "⚹"⟩),
   (60, ⟨"Sextile", "Soft", "⚹"⟩),
   (90, ⟨"Square", "Hard", "□"⟩),
   (120, ⟨"Trine", "Soft", "△"⟩),
   (150, ⟨"Quincunx", "Soft", "⚻"⟩),
   (180, ⟨"Opposition", "Hard", "☍"⟩)]

/-- `ORBS` (`astro.py` lines 62–67). -/
def ORBS : List (String × ℚ) :=
  [("Major_Natal", 3), ("Minor_Natal", 1), ("Major_Synastry", 1), ("Minor_Synastry", 1/2)]

/-- One record of the `aspects_list` output (`astro.py` lines 198–208). -/
structure Aspect where
  angle : ℕ
  aspect_name : String
  aspect_type : String
  symbol : String
  orb : ℚ
  actual_angle_diff : ℚ
  chart1_planet : String
  chart2_planet : String
  aspect_dimension : String
deriving DecidableEq, Repr

/-- The circular separation computed per pair (`astro.py` lines 190–191):
`diff = abs(long1 - long2); diff = min(diff, 360 - diff)`. -/
def circularDiff (long1 long2 : ℚ) : ℚ :=
  let diff := |long1 - long2|
  min diff (360 - diff)

/-- The inner `for j, p2 in enumerate(planets2)` loop of the pair
enumeration (`astro.py` lines 182–184), carrying the running index `j`;
`natal` is whether the natal-mode `i >= j` guard is active. -/
def pairLoop2 (natal : Bool) (i : ℕ) (p1 : String) :
    ℕ → List String → List (String × String)
  | _, [] => []
  | j, p2 :: rest =>
    (if natal ∧ i ≥ j then [] else [(p1, p2)]) ++ pairLoop2 natal i p1 (j + 1) rest

/-- The outer `for i, p1 in enumerate(planets1)` loop of the pair
enumeration (`astro.py` lines 181–184), carrying the running index `i`. -/
def pairLoop1 (natal : Bool) : ℕ → List String → List String → List (String × String)
  | _, [], _ => []
  | i, p1 :: rest, planets2 =>
    pairLoop2 natal i p1 0 planets2 ++ pairLoop1 natal (i + 1) rest planets2

/-- The candidate pairs `calculate_aspects` enumerates: all `(p1, p2)` with
`p1` from `planets1` and `p2` from `planets2`, except that in natal mode
pairs with `i ≥ j` are skipped. -/
def enumPairs (natal : Bool) (planets1 planets2 : List String) :
    List (String × String) :=
  pairLoop1 natal 0 planets1 planets2

/-- Dictionary lookup of the `longitude` field; the keys fed to it
always come from the same dictionary, so the default is unreachable. -/
def lookupLong (m : List (String × Position)) (k : String) : ℚ :=
  ((m.lookup k).getD ⟨0, false, ""⟩).longitude

/-- The Python sort key `(angle, chart1_planet, chart2_planet)`
(`astro.py` line 212), with the lexicographic tuple comparison of Python. -/
def aspectKey (x : Aspect) : ℕ ×ₗ (String ×ₗ String) :=
  toLex (x.angle, toLex (x.chart1_planet, x.chart2_planet))

/-- The comparison `aspects_list.sort(key=...)` sorts by. -/
def aspectKeyLE (x y : Aspect) : Prop :=
  aspectKey x ≤ aspectKey y

instance : DecidableRel aspectKeyLE := fun x y => by
  unfold aspectKeyLE; infer_instance

instance : IsTotal Aspect aspectKeyLE :=
  ⟨fun x y => le_total (aspectKey x) (aspectKey y)⟩

instance : IsTrans Aspect aspectKeyLE :=
  ⟨fun _ _ _ hxy hyz => le_trans hxy hyz⟩

/-- The per-pair matching loop body (`astro.py` lines 194–209): test the
pair's circular separation against every canonical angle and emit a match
for each angle within orb. -/
def matchesForPair (orb : ℚ) (p1 p2 : String) (long1 long2 : ℚ) : List Aspect :=
  ASPECTS.filterMap (fun ta =>
    let diff := circularDiff long1 long2
    let actual_angle_diff := |diff - (ta.1 : ℚ)|
    if actual_angle_diff ≤ orb then
      some ⟨ta.1, ta.2.name, ta.2.type, ta.2.symbol, orb, actual_angle_diff, p1, p2,
            if ta.2.type = "Hard" then "H" else "S"⟩
    else none)

/-- `calculate_aspects` (`astro.py` lines 156–213).  `positions2 = none` is
natal (intra-chart) mode, `some` is synastry (inter-chart) mode. -/
def calculate_aspects (positions1 : List (String × Position))
    (positions2 : Option (List (String × Position))) : List Aspect :=
  let natal := positions2.isNone
  let planets1 := positions1.map Prod.fst
  let planets2 := (positions2.getD positions1).map Prod.fst
  let orb := ((ORBS.lookup (if natal then "Major_Natal" else "Major_Synastry")).getD 0)
  let aspects_list := (enumPairs natal planets1 planets2).flatMap (fun pq =>
    matchesForPair orb pq.1 pq.2
      (lookupLong positions1 pq.1)
      (lookupLong (positions2.getD positions1) pq.2))
  aspects_list.insertionSort aspectKeyLE

/-! ## Helper definitions and lemmas for the claim theorems -/

/-- A concrete adapter whose classical source is constant `0` and whose
minor-body source is unavailable. -/
def plainAdapter : Adapter := ⟨fun _ _ => 0, none⟩

/-- A concrete adapter under which every classical body moves from
longitude `10` at `t = 0` to longitude `5` one hour later (so every
motion-sensitive body is retrograde), with the minor-body source
unavailable. -/
def retroAdapter : Adapter := ⟨fun _ t => if t = 0 then 10 else 5, none⟩

/-- A concrete adapter that reports the out-of-range degree value `400`
for every classical body and `500` for Chiron. -/
def oorAdapter : Adapter := ⟨fun _ _ => 400, some (fun _ => 500)⟩

/-- Reference form of the natal pair enumeration: each element paired with
every element that follows it. -/
def pairsAux : List String → List (String × String)
  | [] => []
  | x :: xs => (xs.map (fun y => (x, y))) ++ pairsAux xs

/-- A small concrete natal position map with three distinct bodies. -/
def samplePositions : List (String × Position) :=
  [("Sun", ⟨10, false, ""⟩), ("Moon", ⟨100, false, ""⟩), ("Mercury", ⟨350, false, ""⟩)]

/-! ## Lemmas and claim theorems -/

/-- Unfolding one iteration of the resolver loop when the step succeeds. -/
theorem resolveLoop_cons (ad : Adapter) (t : Instant) (p : String) (rest : List String)
    (st st' : List (String × Position) × Option Bool)
    (h : resolveStep ad t st p = Except.ok st') :
    resolveLoop ad t (p :: rest) st = resolveLoop ad t rest st' := by
  simp [resolveLoop, h]

/-- Symbolic evaluation of `calculate_positions` over the fixed roster: the
loop always succeeds and produces the eleven entries in roster order.  Note
the Chiron entry: its `mkEntry` receives `retroOf ad "Pluto" t`, the value
the loop-local `is_retrograde` variable still holds from the Pluto
iteration. -/
theorem calculate_positions_eq (ad : Adapter) (t : Instant) :
    calculate_positions ad t = Except.ok
      [("Sun", rosterEntry ad t "Sun"),
         ("Moon", rosterEntry ad t "Moon"),
         ("Mercury", rosterEntry ad t "Mercury"),
         ("Venus", rosterEntry ad t "Venus"),
         ("Mars", rosterEntry ad t "Mars"),
         ("Jupiter", rosterEntry ad t "Jupiter"),
         ("Saturn", rosterEntry ad t "Saturn"),
         ("Uranus", rosterEntry ad t "Uranus"),
         ("Neptune", rosterEntry ad t "Neptune"),
         ("Pluto", rosterEntry ad t "Pluto"),
       ("Chiron", mkEntry "Chiron" (chironDeg ad t) (retroOf ad "Pluto" t))] := by
  have h1 : resolveLoop ad t PLANETS
        ([], none) =
      resolveLoop ad t ["Moon", "Mercury", "Venus", "Mars", "Jupiter", "Saturn", "Uranus", "Neptune", "Pluto", "Chiron"]
        ([("Sun", rosterEntry ad t "Sun")],
         some (retroOf ad "Sun" t)) :=
    resolveLoop_cons _ _ _ _ _ _ (by
      simp [resolveStep, get_pyephem_body, dictInsert, rosterEntry, retroOf])
  have h2 : resolveLoop ad t ["Moon", "Mercury", "Venus", "Mars", "Jupiter", "Saturn", "Uranus", "Neptune", "Pluto", "Chiron"]
        ([("Sun", rosterEntry ad t "Sun")],
         some (retroOf ad "Sun" t)) =
      resolveLoop ad t ["Mercury", "Venus", "Mars", "Jupiter", "Saturn", "Uranus", "Neptune", "Pluto", "Chiron"]
        ([("Sun", rosterEntry ad t "Sun"),
         ("Moon", rosterEntry ad t "Moon")],
         some (retroOf ad "Moon" t)) :=
    resolveLoop_cons _ _ _ _ _ _ (by
      simp [resolveStep, get_pyephem_body, dictInsert, rosterEntry, retroOf])
  have h3 : resolveLoop ad t ["Mercury", "Venus", "Mars", "Jupiter", "Saturn", "Uranus", "Neptune", "Pluto", "Chiron"]
        ([("Sun", rosterEntry ad t "Sun"),
         ("Moon", rosterEntry ad t "Moon")],
         some (retroOf ad "Moon" t)) =
      resolveLoop ad t ["Venus", "Mars", "Jupiter", "Saturn", "Uranus", "Neptune", "Pluto", "Chiron"]
        ([("Sun", rosterEntry ad t "Sun"),
         ("Moon", rosterEntry ad t "Moon"),
         ("Mercury", rosterEntry ad t "Mercury")],
         some (retroOf ad "Mercury" t)) :=
    resolveLoop_cons _ _ _ _ _ _ (by
      simp [resolveStep, get_pyephem_body, dictInsert, rosterEntry, retroOf])
  have h4 : resolveLoop ad t ["Venus", "Mars", "Jupiter", "Saturn", "Uranus", "Neptune", "Pluto", "Chiron"]
        ([("Sun", rosterEntry ad t "Sun"),
         ("Moon", rosterEntry ad t "Moon"),
         ("Mercury", rosterEntry ad t "Mercury")],
         some (retroOf ad "Mercury" t)) =
      resolveLoop ad t ["Mars", "Jupiter", "Saturn", "Uranus", "Neptune", "Pluto", "Chiron"]
        ([("Sun", rosterEntry ad t "Sun"),
         ("Moon", rosterEntry ad t "Moon"),
         ("Mercury", rosterEntry ad t "Mercury"),
         ("Venus", rosterEntry ad t "Venus")],
         some (retroOf ad "Venus" t)) :=
    resolveLoop_cons _ _ _ _ _ _ (by
      simp [resolveStep, get_pyephem_body, dictInsert, rosterEntry, retroOf])
  have h5 : resolveLoop ad t ["Mars", "Jupiter", "Saturn", "Uranus", "Neptune", "Pluto", "Chiron"]
        ([("Sun", rosterEntry ad t "Sun"),
         ("Moon", rosterEntry ad t "Moon"),
         ("Mercury", rosterEntry ad t "Mercury"),
         ("Venus", rosterEntry ad t "Venus")],
         some (retroOf ad "Venus" t)) =
      resolveLoop ad t ["Jupiter", "Saturn", "Uranus", "Neptune", "Pluto", "Chiron"]
        ([("Sun", rosterEntry ad t "Sun"),
         ("Moon", rosterEntry ad t "Moon"),
         ("Mercury", rosterEntry ad t "Mercury"),
         ("Venus", rosterEntry ad t "Venus"),
         ("Mars", rosterEntry ad t "Mars")],
         some (retroOf ad "Mars" t)) :=
    resolveLoop_cons _ _ _ _ _ _ (by
      simp [resolveStep, get_pyephem_body, dictInsert, rosterEntry, retroOf])
  have h6 : resolveLoop ad t ["Jupiter", "Saturn", "Uranus", "Neptune", "Pluto", "Chiron"]
        ([("Sun", rosterEntry ad t "Sun"),
         ("Moon", rosterEntry ad t "Moon"),
         ("Mercury", rosterEntry ad t "Mercury"),
         ("Venus", rosterEntry ad t "Venus"),
         ("Mars", rosterEntry ad t "Mars")],
         some (retroOf ad "Mars" t)) =
      resolveLoop ad t ["Saturn", "Uranus", "Neptune", "Pluto", "Chiron"]
        ([("Sun", rosterEntry ad t "Sun"),
         ("Moon", rosterEntry ad t "Moon"),
         ("Mercury", rosterEntry ad t "Mercury"),
         ("Venus", rosterEntry ad t "Venus"),
         ("Mars", rosterEntry ad t "Mars"),
         ("Jupiter", rosterEntry ad t "Jupiter")],
         some (retroOf ad "Jupiter" t)) :=
    resolveLoop_cons _ _ _ _ _ _ (by
      simp [resolveStep, get_pyephem_body, dictInsert, rosterEntry, retroOf])
  have h7 : resolveLoop ad t ["Saturn", "Uranus", "Neptune", "Pluto", "Chiron"]
        ([("Sun", rosterEntry ad t "Sun"),
         ("Moon", rosterEntry ad t "Moon"),
         ("Mercury", rosterEntry ad t "Mercury"),
         ("Venus", rosterEntry ad t "Venus"),
         ("Mars", rosterEntry ad t "Mars"),
         ("Jupiter", rosterEntry ad t "Jupiter")],
         some (retroOf ad "Jupiter" t)) =
      resolveLoop ad t ["Uranus", "Neptune", "Pluto", "Chiron"]
        ([("Sun", rosterEntry ad t "Sun"),
         ("Moon", rosterEntry ad t "Moon"),
         ("Mercury", rosterEntry ad t "Mercury"),
         ("Venus", rosterEntry ad t "Venus"),
         ("Mars", rosterEntry ad t "Mars"),
         ("Jupiter", rosterEntry ad t "Jupiter"),
         ("Saturn", rosterEntry ad t "Saturn")],
         some (retroOf ad "Saturn" t)) :=
    resolveLoop_cons _ _ _ _ _ _ (by
      simp [resolveStep, get_pyephem_body, dictInsert, rosterEntry, retroOf])
  have h8 : resolveLoop ad t ["Uranus", "Neptune", "Pluto", "Chiron"]
        ([("Sun", rosterEntry ad t "Sun"),
         ("Moon", rosterEntry ad t "Moon"),
         ("Mercury", rosterEntry ad t "Mercury"),
         ("Venus", rosterEntry ad t "Venus"),
         ("Mars", rosterEntry ad t "Mars"),
         ("Jupiter", rosterEntry ad t "Jupiter"),
         ("Saturn", rosterEntry ad t "Saturn")],
         some (retroOf ad "Saturn" t)) =
      resolveLoop ad t ["Neptune", "Pluto", "Chiron"]
        ([("Sun", rosterEntry ad t "Sun"),
         ("Moon", rosterEntry ad t "Moon"),
         ("Mercury", rosterEntry ad t "Mercury"),
         ("Venus", rosterEntry ad t "Venus"),
         ("Mars", rosterEntry ad t "Mars"),
         ("Jupiter", rosterEntry ad t "Jupiter"),
         ("Saturn", rosterEntry ad t "Saturn"),
         ("Uranus", rosterEntry ad t "Uranus")],
         some (retroOf ad "Uranus" t)) :=
    resolveLoop_cons _ _ _ _ _ _ (by
      simp [resolveStep, get_pyephem_body, dictInsert, rosterEntry, retroOf])
  have h9 : resolveLoop ad t ["Neptune", "Pluto", "Chiron"]
        ([("Sun", rosterEntry ad t "Sun"),
         ("Moon", rosterEntry ad t "Moon"),
         ("Mercury", rosterEntry ad t "Mercury"),
         ("Venus", rosterEntry ad t "Venus"),
         ("Mars", rosterEntry ad t "Mars"),
         ("Jupiter", rosterEntry ad t "Jupiter"),
         ("Saturn", rosterEntry ad t "Saturn"),
         ("Uranus", rosterEntry ad t "Uranus")],
         some (retroOf ad "Uranus" t)) =
      resolveLoop ad t ["Pluto", "Chiron"]
        ([("Sun", rosterEntry ad t "Sun"),
         ("Moon", rosterEntry ad t "Moon"),
         ("Mercury", rosterEntry ad t "Mercury"),
         ("Venus", rosterEntry ad t "Venus"),
         ("Mars", rosterEntry ad t "Mars"),
         ("Jupiter", rosterEntry ad t "Jupiter"),
         ("Saturn", rosterEntry ad t "Saturn"),
         ("Uranus", rosterEntry ad t "Uranus"),
         ("Neptune", rosterEntry ad t "Neptune")],
         some (retroOf ad "Neptune" t)) :=
    resolveLoop_cons _ _ _ _ _ _ (by
      simp [resolveStep, get_pyephem_body, dictInsert, rosterEntry, retroOf])
  have h10 : resolveLoop ad t ["Pluto", "Chiron"]
        ([("Sun", rosterEntry ad t "Sun"),
         ("Moon", rosterEntry ad t "Moon"),
         ("Mercury", rosterEntry ad t "Mercury"),
         ("Venus", rosterEntry ad t "Venus"),
         ("Mars", rosterEntry ad t "Mars"),
         ("Jupiter", rosterEntry ad t "Jupiter"),
         ("Saturn", rosterEntry ad t "Saturn"),
         ("Uranus", rosterEntry ad t "Uranus"),
         ("Neptune", rosterEntry ad t "Neptune")],
         some (retroOf ad "Neptune" t)) =
      resolveLoop ad t ["Chiron"]
        ([("Sun", rosterEntry ad t "Sun"),
         ("Moon", rosterEntry ad t "Moon"),
         ("Mercury", rosterEntry ad t "Mercury"),
         ("Venus", rosterEntry ad t "Venus"),
         ("Mars", rosterEntry ad t "Mars"),
         ("Jupiter", rosterEntry ad t "Jupiter"),
         ("Saturn", rosterEntry ad t "Saturn"),
         ("Uranus", rosterEntry ad t "Uranus"),
         ("Neptune", rosterEntry ad t "Neptune"),
         ("Pluto", rosterEntry ad t "Pluto")],
         some (retroOf ad "Pluto" t)) :=
    resolveLoop_cons _ _ _ _ _ _ (by
      simp [resolveStep, get_pyephem_body, dictInsert, rosterEntry, retroOf])
  have h11 : resolveLoop ad t ["Chiron"]
        ([("Sun", rosterEntry ad t "Sun"),
         ("Moon", rosterEntry ad t "Moon"),
         ("Mercury", rosterEntry ad t "Mercury"),
         ("Venus", rosterEntry ad t "Venus"),
         ("Mars", rosterEntry ad t "Mars"),
         ("Jupiter", rosterEntry ad t "Jupiter"),
         ("Saturn", rosterEntry ad t "Saturn"),
         ("Uranus", rosterEntry ad t "Uranus"),
         ("Neptune", rosterEntry ad t "Neptune"),
         ("Pluto", rosterEntry ad t "Pluto")],
         some (retroOf ad "Pluto" t)) =
      Except.ok
        ([("Sun", rosterEntry ad t "Sun"),
         ("Moon", rosterEntry ad t "Moon"),
         ("Mercury", rosterEntry ad t "Mercury"),
         ("Venus", rosterEntry ad t "Venus"),
         ("Mars", rosterEntry ad t "Mars"),
         ("Jupiter", rosterEntry ad t "Jupiter"),
         ("Saturn", rosterEntry ad t "Saturn"),
         ("Uranus", rosterEntry ad t "Uranus"),
         ("Neptune", rosterEntry ad t "Neptune"),
         ("Pluto", rosterEntry ad t "Pluto"),
         ("Chiron", mkEntry "Chiron" (chironDeg ad t) (retroOf ad "Pluto" t))],
         some (retroOf ad "Pluto" t)) := by
    simp [resolveLoop, resolveStep, dictInsert]
  simp [calculate_positions, h1, h2, h3, h4, h5, h6, h7, h8, h9, h10, h11, Except.map]

/-- Looking a key up in two association lists that agree except for the
value stored at a trailing different key gives the same result. -/
theorem lookup_append_singleton_ne (k q : String) (hq : q ≠ k) (v w : Position) :
    ∀ l : List (String × Position),
      (l ++ [(k, v)]).lookup q = (l ++ [(k, w)]).lookup q
  | [] => by
    have : (q == k) = false := by simpa using hq
    simp [List.lookup, this]
  | a :: l => by
    cases h : q == a.1 <;>
      simp [List.lookup, h, lookup_append_singleton_ne k q hq v w l]

/-! ## Claim theorems -/

/-- C1: for every roster body other than Sun, Moon and Chiron, the resolver
queries the adapter at the instant and one hour later and stores
`is_retrograde = true` exactly when the wraparound-corrected signed delta
is negative; the correction adds 360 to any delta below −180 and subtracts
360 from any delta above 180 and leaves deltas in [−180, 180] unchanged;
and the boundary-crossing example (current 359.8°, future 0.3°) yields a
corrected delta of +0.5° and no retrograde flag. -/
theorem retrograde_detection (ad : Adapter) (t : Instant) (p : String)
    (hp : p ∈ PLANETS) (hs : p ≠ "Sun") (hm : p ≠ "Moon") (hc : p ≠ "Chiron") :
    (∃ m pos, calculate_positions ad t = Except.ok m ∧ m.lookup p = some pos ∧
      (pos.is_retrograde = true ↔
        diffCorrect (ad.pyephemLong p t) (ad.pyephemLong p (t + 1)) < 0)) ∧
    (∀ current future : ℚ, future - current < -180 →
      diffCorrect current future = future - current + 360) ∧
    (∀ current future : ℚ, future - current > 180 →
      diffCorrect current future = future - current - 360) ∧
    (∀ current future : ℚ, -180 ≤ future - current → future - current ≤ 180 →
      diffCorrect current future = future - current) ∧
    diffCorrect (359.8 : ℚ) (0.3 : ℚ) = (0.5 : ℚ) ∧
    retroFlag (359.8 : ℚ) (0.3 : ℚ) = false := by
  refine ⟨?_, ?_, ?_, ?_, by norm_num [diffCorrect], by norm_num [retroFlag, diffCorrect]⟩
  · simp only [PLANETS, List.mem_cons, List.not_mem_nil, or_false] at hp
    rcases hp with rfl | rfl | rfl | rfl | rfl | rfl | rfl | rfl | rfl | rfl | rfl
    · exact absurd rfl hs
    · exact absurd rfl hm
    all_goals try exact absurd rfl hc
    all_goals
      exact ⟨_, _, calculate_positions_eq ad t, by rfl, by
        simp [rosterEntry, mkEntry, retroOf, retroFlag]⟩
  · intro current future h
    simp only [diffCorrect]
    rw [if_pos h]
  · intro current future h
    simp only [diffCorrect]
    rw [if_neg (by linarith), if_pos h]
  · intro current future h1 h2
    simp only [diffCorrect]
    rw [if_neg (by linarith), if_neg (by linarith)]

/-- Witness for C1 at the concrete body Mars under `plainAdapter`. -/
theorem retrograde_detection_witness :
    ("Mars" ∈ PLANETS ∧ "Mars" ≠ "Sun" ∧ "Mars" ≠ "Moon" ∧ "Mars" ≠ "Chiron") ∧
    ((∃ m pos, calculate_positions plainAdapter 0 = Except.ok m ∧
        m.lookup "Mars" = some pos ∧
        (pos.is_retrograde = true ↔
          diffCorrect (plainAdapter.pyephemLong "Mars" 0)
            (plainAdapter.pyephemLong "Mars" (0 + 1)) < 0)) ∧
      (∀ current future : ℚ, future - current < -180 →
        diffCorrect current future = future - current + 360) ∧
      (∀ current future : ℚ, future - current > 180 →
        diffCorrect current future = future - current - 360) ∧
      (∀ current future : ℚ, -180 ≤ future - current → future - current ≤ 180 →
        diffCorrect current future = future - current) ∧
      diffCorrect (359.8 : ℚ) (0.3 : ℚ) = (0.5 : ℚ) ∧
      retroFlag (359.8 : ℚ) (0.3 : ℚ) = false) :=
  ⟨⟨by decide, by decide, by decide, by decide⟩,
   retrograde_detection plainAdapter 0 "Mars" (by decide) (by decide) (by decide) (by decide)⟩

/-- C4: the Position records for Sun, Moon and Chiron always carry
`is_retrograde = false`, whatever longitudes the adapter reports. -/
theorem sun_moon_chiron_never_retrograde (ad : Adapter) (t : Instant) (p : String)
    (hp : p ∈ (["Sun", "Moon", "Chiron"] : List String)) :
    ∃ m pos, calculate_positions ad t = Except.ok m ∧ m.lookup p = some pos ∧
      pos.is_retrograde = false := by
  simp only [List.mem_cons, List.not_mem_nil, or_false] at hp
  rcases hp with rfl | rfl | rfl
  · exact ⟨_, _, calculate_positions_eq ad t, by rfl, by simp [rosterEntry, mkEntry]⟩
  · exact ⟨_, _, calculate_positions_eq ad t, by rfl, by simp [rosterEntry, mkEntry]⟩
  · exact ⟨_, _, calculate_positions_eq ad t, by rfl, by simp [mkEntry]⟩

/-- Witness for C4 at the concrete body Sun under `retroAdapter`, an
adapter under which every classical body shows retrograde motion. -/
theorem sun_moon_chiron_never_retrograde_witness :
    "Sun" ∈ (["Sun", "Moon", "Chiron"] : List String) ∧
    ∃ m pos, calculate_positions retroAdapter 0 = Except.ok m ∧
      m.lookup "Sun" = some pos ∧ pos.is_retrograde = false :=
  ⟨by decide, sun_moon_chiron_never_retrograde retroAdapter 0 "Sun" (by decide)⟩

/-- C9: the Chiron record of every resolved map carries the retrograde
marker computed for the immediately preceding roster body, Pluto.  When
the corrected one-hour delta of Pluto is negative, the marker of Chiron is
`Rx` even though its own `is_retrograde` field is `false`.  (The adapter is
arbitrary, so this holds whether or not the minor-body source loaded.) -/
theorem chiron_rx_marker_from_pluto (ad : Adapter) (t : Instant)
    (h : diffCorrect (ad.pyephemLong "Pluto" t) (ad.pyephemLong "Pluto" (t + 1)) < 0) :
    ∃ m pos, calculate_positions ad t = Except.ok m ∧ m.lookup "Chiron" = some pos ∧
      pos.is_retrograde = false ∧
      pos.Rx_symbol = (if retroOf ad "Pluto" t then "Rx" else "") ∧
      pos.Rx_symbol = "Rx" := by
  have hr : retroOf ad "Pluto" t = true := by
    simp [retroOf, retroFlag, h]
  exact ⟨_, _, calculate_positions_eq ad t, by rfl,
    by simp [mkEntry], by simp [mkEntry, hr], by simp [mkEntry, hr]⟩

/-- Witness for C9 under `retroAdapter`, an adapter whose Pluto longitude
moves from 10° to 5° over the hour. -/
theorem chiron_rx_marker_from_pluto_witness :
    diffCorrect (retroAdapter.pyephemLong "Pluto" 0)
        (retroAdapter.pyephemLong "Pluto" (0 + 1)) < 0 ∧
    ∃ m pos, calculate_positions retroAdapter 0 = Except.ok m ∧
      m.lookup "Chiron" = some pos ∧ pos.is_retrograde = false ∧
      pos.Rx_symbol = (if retroOf retroAdapter "Pluto" 0 then "Rx" else "") ∧
      pos.Rx_symbol = "Rx" :=
  ⟨by norm_num [retroAdapter, diffCorrect],
   chiron_rx_marker_from_pluto retroAdapter 0 (by norm_num [retroAdapter, diffCorrect])⟩

/-- C3 is refuted by the code: under `retroAdapter` (Pluto retrograde,
minor-body source unavailable) the Chiron record has
`is_retrograde = false` but display marker `Rx`, so the marker is not
determined by the record's own retrograde flag. -/
theorem rx_marker_contradicts_flag_on_chiron :
    ∃ m pos, calculate_positions retroAdapter 0 = Except.ok m ∧
      m.lookup "Chiron" = some pos ∧
      pos.is_retrograde = false ∧ pos.Rx_symbol = "Rx" ∧ pos.Rx_symbol ≠ "" := by
  have hr : retroOf retroAdapter "Pluto" 0 = true := by
    norm_num [retroOf, retroFlag, retroAdapter, diffCorrect]
  exact ⟨_, _, calculate_positions_eq retroAdapter 0, by rfl,
    by simp [mkEntry], by simp [mkEntry, hr], by simp [mkEntry, hr]⟩

/-- C7: with the minor-body source unavailable, Chiron is still present in
the output map, with longitude defaulted to 0 and `is_retrograde = false`,
and every other roster body resolves exactly as it would with the source
available. -/
theorem chiron_degraded_included (pf : String → Instant → ℚ) (t : Instant) :
    ∃ m pos, calculate_positions ⟨pf, none⟩ t = Except.ok m ∧
      m.lookup "Chiron" = some pos ∧ pos.longitude = 0 ∧ pos.is_retrograde = false ∧
      ∀ f : Instant → ℚ, ∃ m', calculate_positions ⟨pf, some f⟩ t = Except.ok m' ∧
        ∀ q : String, q ≠ "Chiron" → m'.lookup q = m.lookup q := by
  refine ⟨_, _, calculate_positions_eq ⟨pf, none⟩ t, by rfl,
    by simp [mkEntry, chironDeg], by simp [mkEntry], ?_⟩
  intro f
  refine ⟨_, calculate_positions_eq ⟨pf, some f⟩ t, ?_⟩
  intro q hq
  exact lookup_append_singleton_ne "Chiron" q hq
    (mkEntry "Chiron" (chironDeg ⟨pf, some f⟩ t) (retroOf ⟨pf, some f⟩ "Pluto" t))
    (mkEntry "Chiron" (chironDeg ⟨pf, none⟩ t) (retroOf ⟨pf, none⟩ "Pluto" t))
    [("Sun", rosterEntry ⟨pf, none⟩ t "Sun"),
     ("Moon", rosterEntry ⟨pf, none⟩ t "Moon"),
     ("Mercury", rosterEntry ⟨pf, none⟩ t "Mercury"),
     ("Venus", rosterEntry ⟨pf, none⟩ t "Venus"),
     ("Mars", rosterEntry ⟨pf, none⟩ t "Mars"),
     ("Jupiter", rosterEntry ⟨pf, none⟩ t "Jupiter"),
     ("Saturn", rosterEntry ⟨pf, none⟩ t "Saturn"),
     ("Uranus", rosterEntry ⟨pf, none⟩ t "Uranus"),
     ("Neptune", rosterEntry ⟨pf, none⟩ t "Neptune"),
     ("Pluto", rosterEntry ⟨pf, none⟩ t "Pluto")]

/-- Witness for C7 at a concrete classical source. -/
theorem chiron_degraded_included_witness :
    ∃ m pos, calculate_positions ⟨fun _ _ => 0, none⟩ 0 = Except.ok m ∧
      m.lookup "Chiron" = some pos ∧ pos.longitude = 0 ∧ pos.is_retrograde = false ∧
      ∀ f : Instant → ℚ, ∃ m', calculate_positions ⟨fun _ _ => 0, some f⟩ 0 = Except.ok m' ∧
        ∀ q : String, q ≠ "Chiron" → m'.lookup q = m.lookup q :=
  chiron_degraded_included (fun _ _ => 0) 0

/-- C8 is refuted by the code: the resolver stores the degree value the
adapter reports without any normalization, so an adapter value of 400
lands in the output map as 400, outside [0, 360). -/
theorem longitude_not_normalized :
    ¬ (∀ (ad : Adapter) (t : Instant) (m : List (String × Position))
        (p : String) (pos : Position),
        calculate_positions ad t = Except.ok m → m.lookup p = some pos →
        0 ≤ pos.longitude ∧ pos.longitude < 360) := by
  intro h
  have h2 := (h oorAdapter 0 _ "Sun" _ (calculate_positions_eq oorAdapter 0) (by rfl)).2
  have h3 : (rosterEntry oorAdapter 0 "Sun").longitude = 400 := by
    simp [rosterEntry, mkEntry, oorAdapter]
  rw [h3] at h2
  norm_num at h2

/-- C8 amended: the stored longitude is exactly the value the ephemeris
source produced (for Chiron, the skyfield value, or 0 when the source is
unavailable); no normalization into [0, 360) is applied. -/
theorem longitude_stored_unnormalized (ad : Adapter) (t : Instant) (p : String)
    (hp : p ∈ PLANETS) :
    ∃ m pos, calculate_positions ad t = Except.ok m ∧ m.lookup p = some pos ∧
      pos.longitude = (if p = "Chiron" then chironDeg ad t else ad.pyephemLong p t) := by
  simp only [PLANETS, List.mem_cons, List.not_mem_nil, or_false] at hp
  rcases hp with rfl | rfl | rfl | rfl | rfl | rfl | rfl | rfl | rfl | rfl | rfl
  all_goals exact ⟨_, _, calculate_positions_eq ad t, by rfl, by simp [rosterEntry, mkEntry]⟩

/-- Witness for the amended C8 at the concrete body Venus under
`oorAdapter`, whose reported values are out of range. -/
theorem longitude_stored_unnormalized_witness :
    "Venus" ∈ PLANETS ∧
    ∃ m pos, calculate_positions oorAdapter 0 = Except.ok m ∧
      m.lookup "Venus" = some pos ∧
      pos.longitude =
        (if "Venus" = "Chiron" then chironDeg oorAdapter 0
         else oorAdapter.pyephemLong "Venus" 0) :=
  ⟨by decide, longitude_stored_unnormalized oorAdapter 0 "Venus" (by decide)⟩

/-- C10 is refuted by the code: a body identifier unknown to
`get_pyephem_body` does not make resolution fail; the loop hits `continue`
and the body is silently left out of the output map. -/
theorem unknown_body_no_failure :
    ¬ (∀ (ad : Adapter) (t : Instant) (p : String),
        get_pyephem_body p = none → p ≠ "Chiron" →
        ∃ e, resolveLoop ad t [p] ([], none) = Except.error e) := by
  intro h
  rcases h plainAdapter 0 "Vulcan" (by decide) (by decide) with ⟨e, he⟩
  rw [show resolveLoop plainAdapter 0 ["Vulcan"] ([], none) = Except.ok ([], none)
      from rfl] at he
  exact Except.noConfusion he

/-- C10 amended: an unknown body identifier is silently skipped: the loop
iteration for it returns the state unchanged (no entry added, no error
raised) and the rest of the roster is processed as if it were absent. -/
theorem unknown_body_silently_skipped (ad : Adapter) (t : Instant) (p : String)
    (rest : List String) (st : List (String × Position) × Option Bool)
    (h : get_pyephem_body p = none) (hc : p ≠ "Chiron") :
    resolveStep ad t st p = Except.ok st ∧
    resolveLoop ad t (p :: rest) st = resolveLoop ad t rest st := by
  have hstep : resolveStep ad t st p = Except.ok st := by
    simp [resolveStep, hc, h]
  exact ⟨hstep, by simp [resolveLoop, hstep]⟩

/-- Witness for the amended C10 at the concrete unknown body Vulcan. -/
theorem unknown_body_silently_skipped_witness :
    (get_pyephem_body "Vulcan" = none ∧ "Vulcan" ≠ "Chiron") ∧
    (resolveStep plainAdapter 0 ([], none) "Vulcan" = Except.ok ([], none) ∧
     resolveLoop plainAdapter 0 ("Vulcan" :: ["Sun"]) ([], none) =
       resolveLoop plainAdapter 0 ["Sun"] ([], none)) :=
  ⟨⟨by decide, by decide⟩,
   unknown_body_silently_skipped plainAdapter 0 "Vulcan" ["Sun"] ([], none)
     (by decide) (by decide)⟩

/-- C2: for longitudes in [0, 360), the circular separation computed by the
aspect engine is `min (abs (a - b)) (360 - abs (a - b))`, lies in [0, 180],
and is symmetric in its two arguments. -/
theorem circularDiff_minor_arc (a b : ℚ)
    (ha0 : 0 ≤ a) (ha : a < 360) (hb0 : 0 ≤ b) (hb : b < 360) :
    circularDiff a b = min |a - b| (360 - |a - b|) ∧
    0 ≤ circularDiff a b ∧ circularDiff a b ≤ 180 ∧
    circularDiff a b = circularDiff b a := by
  have habs : |a - b| < 360 := by
    rw [abs_sub_lt_iff]; constructor <;> linarith
  have h0 : (0 : ℚ) ≤ |a - b| := abs_nonneg _
  refine ⟨rfl, le_min h0 (by linarith), ?_, ?_⟩
  · rcases le_total |a - b| 180 with h | h
    · exact le_trans (min_le_left _ _) h
    · exact le_trans (min_le_right _ _) (by linarith)
  · show min |a - b| (360 - |a - b|) = min |b - a| (360 - |b - a|)
    rw [abs_sub_comm]

/-- Witness for C2 at the boundary-straddling pair 10° and 350°. -/
theorem circularDiff_minor_arc_witness :
    ((0 : ℚ) ≤ 10 ∧ (10 : ℚ) < 360 ∧ (0 : ℚ) ≤ 350 ∧ (350 : ℚ) < 360) ∧
    (circularDiff 10 350 = min |(10 : ℚ) - 350| (360 - |(10 : ℚ) - 350|) ∧
     0 ≤ circularDiff 10 350 ∧ circularDiff 10 350 ≤ 180 ∧
     circularDiff 10 350 = circularDiff 350 10) :=
  ⟨⟨by norm_num, by norm_num, by norm_num, by norm_num⟩,
   circularDiff_minor_arc 10 350 (by norm_num) (by norm_num) (by norm_num) (by norm_num)⟩

/-- C6: in both modes the output of the aspect engine is sorted ascending
by the lexicographic key (canonical angle, chart-1 body, chart-2 body),
and, the engine being a pure function, running it twice on the same input
yields the same sequence. -/
theorem calculate_aspects_sorted_deterministic
    (positions1 : List (String × Position))
    (positions2 : Option (List (String × Position))) :
    List.Sorted aspectKeyLE (calculate_aspects positions1 positions2) ∧
    calculate_aspects positions1 positions2 = calculate_aspects positions1 positions2 := by
  refine ⟨?_, rfl⟩
  unfold calculate_aspects
  exact List.sorted_insertionSort aspectKeyLE _

theorem pairLoop2_true_eq (i : ℕ) (p1 : String) :
    ∀ (j : ℕ) (l : List String),
      pairLoop2 true i p1 j l = (l.drop (i + 1 - j)).map (fun q => (p1, q))
  | _, [] => by simp [pairLoop2]
  | j, p2 :: rest => by
    simp only [pairLoop2]
    rw [pairLoop2_true_eq i p1 (j + 1) rest]
    split_ifs with hc
    · have hj : j ≤ i := hc.2
      have h1 : i + 1 - j = (i - j) + 1 := by omega
      have h2 : i + 1 - (j + 1) = i - j := by omega
      rw [h1, h2, List.drop_succ_cons, List.nil_append]
    · have hj : i < j := by
        rcases Nat.lt_or_ge i j with h | h
        · exact h
        · exact absurd ⟨trivial, h⟩ hc
      have h1 : i + 1 - j = 0 := by omega
      have h2 : i + 1 - (j + 1) = 0 := by omega
      rw [h1, h2]
      simp

theorem pairLoop1_true_eq :
    ∀ (suffix : List String) (i : ℕ) (full : List String),
      full.drop i = suffix → pairLoop1 true i suffix full = pairsAux suffix
  | [], _, _, _ => by simp [pairLoop1, pairsAux]
  | x :: rest, i, full, h => by
    have hdrop : full.drop (i + 1) = rest := by
      have h2 := List.drop_drop 1 i full
      rw [← h2, h]
      rfl
    simp only [pairLoop1, pairsAux]
    rw [pairLoop2_true_eq i x 0 full]
    simp only [Nat.sub_zero]
    rw [hdrop, pairLoop1_true_eq rest (i + 1) full hdrop]

/-- In natal mode the enumerated candidate pairs are exactly the
strictly-later pairs of the key list. -/
theorem enumPairs_natal_eq (l : List String) : enumPairs true l l = pairsAux l :=
  pairLoop1_true_eq l 0 l (by simp)

theorem pairsAux_length : ∀ l : List String, (pairsAux l).length = l.length.choose 2
  | [] => rfl
  | x :: xs => by
    simp only [pairsAux, List.length_append, List.length_map, pairsAux_length xs,
      List.length_cons, Nat.choose_succ_succ, Nat.choose_one_right]

theorem mem_pairsAux : ∀ {l : List String} {a b : String},
    (a, b) ∈ pairsAux l → a ∈ l ∧ b ∈ l
  | [], a, b, h => by simp [pairsAux] at h
  | x :: xs, a, b, h => by
    simp only [pairsAux, List.mem_append, List.mem_map] at h
    rcases h with ⟨y, hy, heq⟩ | h
    · cases heq
      exact ⟨List.mem_cons_self x xs, List.mem_cons_of_mem x hy⟩
    · have h2 := mem_pairsAux h
      exact ⟨List.mem_cons_of_mem x h2.1, List.mem_cons_of_mem x h2.2⟩

theorem pairsAux_irrefl : ∀ {l : List String}, l.Nodup →
    ∀ {a b : String}, (a, b) ∈ pairsAux l → a ≠ b
  | [], _, a, b, h => by simp [pairsAux] at h
  | x :: xs, hnd, a, b, h => by
    simp only [pairsAux, List.mem_append, List.mem_map] at h
    rcases h with ⟨y, hy, heq⟩ | h
    · cases heq
      rintro rfl
      exact (List.nodup_cons.mp hnd).1 hy
    · exact pairsAux_irrefl (List.nodup_cons.mp hnd).2 h

theorem count_map_pair_eq (x b : String) :
    ∀ xs : List String, (xs.map (fun y => (x, y))).count (x, b) = xs.count b
  | [] => rfl
  | y :: ys => by
    simp only [List.map_cons, List.count_cons, count_map_pair_eq x b ys]
    by_cases h : y = b <;> simp [h]

theorem count_map_pair_ne (x a b : String) (hax : a ≠ x) :
    ∀ xs : List String, (xs.map (fun y => (x, y))).count (a, b) = 0
  | [] => rfl
  | y :: ys => by
    simp only [List.map_cons, List.count_cons, count_map_pair_ne x a b hax ys]
    have h : ((x, y) == (a, b)) = false := by
      simp only [beq_eq_false_iff_ne, ne_eq, Prod.mk.injEq, not_and]
      intro hxa
      exact absurd hxa.symm hax
    simp [h]

theorem count_pairsAux_zero_left {l : List String} {a b : String} (ha : a ∉ l) :
    (pairsAux l).count (a, b) = 0 := by
  rw [List.count_eq_zero]
  intro h
  exact ha (mem_pairsAux h).1

theorem count_pairsAux_zero_right {l : List String} {a b : String} (hb : b ∉ l) :
    (pairsAux l).count (a, b) = 0 := by
  rw [List.count_eq_zero]
  intro h
  exact hb (mem_pairsAux h).2

theorem nodup_count_eq_one : ∀ {xs : List String}, xs.Nodup →
    ∀ {b : String}, b ∈ xs → xs.count b = 1
  | [], _, b, h => by simp at h
  | x :: xs, hnd, b, h => by
    obtain ⟨hx, hxs⟩ := List.nodup_cons.mp hnd
    rcases List.mem_cons.mp h with rfl | h2
    · have hz : xs.count b = 0 := List.count_eq_zero.mpr hx
      simp [List.count_cons, hz]
    · have hne : (x == b) = false := by
        simp only [beq_eq_false_iff_ne, ne_eq]
        rintro rfl
        exact hx h2
      simp [List.count_cons, nodup_count_eq_one hxs h2, hne]

theorem pairsAux_count_unordered : ∀ {l : List String}, l.Nodup →
    ∀ {a b : String}, a ∈ l → b ∈ l → a ≠ b →
      (pairsAux l).count (a, b) + (pairsAux l).count (b, a) = 1
  | [], _, a, _, ha, _, _ => by simp at ha
  | x :: xs, hnd, a, b, ha, hb, hab => by
    obtain ⟨hx, hxs⟩ := List.nodup_cons.mp hnd
    simp only [pairsAux, List.count_append]
    by_cases hax : a = x
    · subst hax
      have hbxs : b ∈ xs := by
        rcases List.mem_cons.mp hb with h | h
        · exact absurd h.symm hab
        · exact h
      rw [count_map_pair_eq, nodup_count_eq_one hxs hbxs,
        count_map_pair_ne a b a (fun h => hab h.symm),
        count_pairsAux_zero_left hx, count_pairsAux_zero_right hx]
    · by_cases hbx : b = x
      · subst hbx
        have haxs : a ∈ xs := by
          rcases List.mem_cons.mp ha with h | h
          · exact absurd h hax
          · exact h
        rw [count_map_pair_eq, nodup_count_eq_one hxs haxs,
          count_map_pair_ne b a b hax,
          count_pairsAux_zero_right hx, count_pairsAux_zero_left hx]
      · have haxs : a ∈ xs := by
          rcases List.mem_cons.mp ha with h | h
          · exact absurd h hax
          · exact h
        have hbxs : b ∈ xs := by
          rcases List.mem_cons.mp hb with h | h
          · exact absurd h hbx
          · exact h
        rw [count_map_pair_ne x a b hax, count_map_pair_ne x b a hbx]
        have h2 := pairsAux_count_unordered hxs haxs hbxs hab
        omega

/-- C5: over a natal position map with distinct body names, the engine
enumerates exactly binom(N,2) candidate pairs, never pairs a body with
itself, and visits each unordered pair of distinct bodies exactly once. -/
theorem natal_pair_enumeration (positions1 : List (String × Position))
    (hnd : (positions1.map Prod.fst).Nodup) :
    (enumPairs true (positions1.map Prod.fst) (positions1.map Prod.fst)).length =
        positions1.length * (positions1.length - 1) / 2 ∧
    (∀ a b : String,
      (a, b) ∈ enumPairs true (positions1.map Prod.fst) (positions1.map Prod.fst) →
        a ≠ b) ∧
    (∀ a b : String,
      a ∈ positions1.map Prod.fst → b ∈ positions1.map Prod.fst → a ≠ b →
      (enumPairs true (positions1.map Prod.fst) (positions1.map Prod.fst)).count (a, b) +
        (enumPairs true (positions1.map Prod.fst) (positions1.map Prod.fst)).count (b, a)
          = 1) := by
  rw [enumPairs_natal_eq]
  refine ⟨?_, ?_, ?_⟩
  · rw [pairsAux_length, List.length_map, Nat.choose_two_right]
  · intro a b h
    exact pairsAux_irrefl hnd h
  · intro a b ha hb hab
    exact pairsAux_count_unordered hnd ha hb hab

/-- Witness for C5 on the three-body map `samplePositions`. -/
theorem natal_pair_enumeration_witness :
    (samplePositions.map Prod.fst).Nodup ∧
    ((enumPairs true (samplePositions.map Prod.fst) (samplePositions.map Prod.fst)).length =
        samplePositions.length * (samplePositions.length - 1) / 2 ∧
    (∀ a b : String,
      (a, b) ∈ enumPairs true (samplePositions.map Prod.fst) (samplePositions.map Prod.fst) →
        a ≠ b) ∧
    (∀ a b : String,
      a ∈ samplePositions.map Prod.fst → b ∈ samplePositions.map Prod.fst → a ≠ b →
      (enumPairs true (samplePositions.map Prod.fst)
          (samplePositions.map Prod.fst)).count (a, b) +
        (enumPairs true (samplePositions.map Prod.fst)
          (samplePositions.map Prod.fst)).count (b, a) = 1)) :=
  ⟨by decide, natal_pair_enumeration samplePositions (by decide)⟩
